import Mathlib

/-!
Shallow embedding of the `gravis_utils` library (pagination, bool
transformer, cooldown bucket keys) and verification of its specification.

Each definition mirrors one Python function of the repository:
* `ListPaginator.createPages`  ← `pagination.py`, `ListPaginator._create_pages`
* `Pagination.*`               ← `pagination.py`, class `Pagination`
* `PageSelectModal.onSubmit`   ← `pagination.py`, `PageSelectModal.on_submit`
* `ListPagination.start`       ← `pagination.py`, `ListPagination.start`
* `BoolTransformer.*`          ← `bool_transformer.py`
* `InteractionBucketType.get_key` ← `cooldown.py`

External effects (message sends/edits, modals) are modelled as an explicit
`Effect` list returned next to the new state; whether a delivery (edit)
succeeds is an explicit `Bool` parameter, since the transport is external.
-/

/-- Python `ceil(n / p)` on the natural numbers (`p > 0` in all uses). -/
def ceilDiv (n p : Nat) : Nat := (n + p - 1) / p

/-- The `page_info` dict handed by `ListPaginator._create_pages` to the
renderer: `{"current": i, "total": total_pages, "start_index": start_idx}`. -/
structure PageInfo where
  current : Nat
  total : Nat
  startIndex : Nat
  deriving DecidableEq

/-- The slice `self.items[start_idx:end_idx]` taken by iteration `i` of the
loop in `ListPaginator._create_pages` (`start_idx = i * items_per_page`,
`end_idx = start_idx + items_per_page`). -/
def pageChunk (items : List α) (p i : Nat) : List α :=
  (items.drop (i * p)).take p

/-- `ListPaginator._create_pages`: one rendered page per chunk, the renderer
receiving the chunk together with its `page_info`. The renderer argument `r`
stands for `self.renderer.create_embed`. -/
def ListPaginator.createPages (r : List α → PageInfo → β) (items : List α)
    (p : Nat) : List β :=
  (List.range (ceilDiv items.length p)).map
    (fun i => r (pageChunk items p i)
      ⟨i, ceilDiv items.length p, i * p⟩)

/-- The sequence of item chunks underlying the pages. -/
def chunksList (items : List α) (p : Nat) : List (List α) :=
  (List.range (ceilDiv items.length p)).map (pageChunk items p)

/-- Recursive presentation of the chunk sequence, for induction. -/
def chunksGo (p : Nat) : Nat → List α → List (List α)
  | 0, _ => []
  | t + 1, items => items.take p :: chunksGo p t (items.drop p)

/-- `ctx_or_interaction`: the Python union `commands.Context |
discord.Interaction`. A `Context` carries its `author` id, an `Interaction`
its `user` id; only the caller identity is relevant to the model. -/
inductive CtxOrInteraction where
  | ctx (author : Nat)
  | interaction (user : Nat)
  deriving DecidableEq

/-- The five navigation buttons of a `Pagination` view: their `disabled`
flags and the label of the current-page (jump) button. -/
@[ext]
structure Buttons where
  firstDisabled : Bool
  prevDisabled : Bool
  currentDisabled : Bool
  nextDisabled : Bool
  lastDisabled : Bool
  currentLabel : String
  deriving DecidableEq

/-- `Pagination.add_button`: buttons are created enabled, the jump button
labelled `f"1/{self.total_page_count}ページ"`. -/
def addButton (total : Nat) : Buttons :=
  { firstDisabled := false, prevDisabled := false, currentDisabled := false,
    nextDisabled := false, lastDisabled := false,
    currentLabel := "1/" ++ toString total ++ "ページ" }

/-- State of a `Pagination` view. `pages`, `ctxOrInteraction` and `message`
are `Option`s because `on_timeout` resets them to `None`; `stopped` models
`discord.ui.View.stop()` having been called. Page ids replace rendered
embeds (`β`). -/
@[ext]
structure PagState (β : Type) where
  pages : Option (List β)
  ctxOrInteraction : Option CtxOrInteraction
  message : Option Unit
  currentPage : Nat
  totalPageCount : Nat
  buttons : Buttons
  stopped : Bool
  deriving DecidableEq

/-- Outbound calls a handler makes to the transport. -/
inductive Effect where
  | editMessage
  | sendModal
  | sendEphemeral (text : String)
  deriving DecidableEq

/-- `Pagination.update_button_states`. The comparisons are over Python
ints, hence over `Int` (relevant if `total_page_count = 0`, where Python
compares against `-1`). -/
def Pagination.updateButtonStates (s : PagState β) : PagState β :=
  { s with buttons :=
    { s.buttons with
      firstDisabled := decide ((s.currentPage : Int) = 0)
      prevDisabled := decide ((s.currentPage : Int) = 0)
      nextDisabled :=
        decide ((s.currentPage : Int) = (s.totalPageCount : Int) - 1)
      lastDisabled :=
        decide ((s.currentPage : Int) = (s.totalPageCount : Int) - 1)
      currentLabel :=
        toString (s.currentPage + 1) ++ "/" ++ toString s.totalPageCount
          ++ "ページ" } }

/-- `discord.ui.View.stop()`: the view stops listening for events. It does
not touch `pages`, `ctx_or_interaction` or `message`. -/
def Pagination.stopView (s : PagState β) : PagState β :=
  { s with stopped := true }

/-- `Pagination.go_to_page`: inside the bounds check, sets `current_page`,
recomputes the button states, then edits the bound message; a
`discord.HTTPException` from the edit (modelled by `editOk = false`) leads
to `self.stop()`. Outside the bounds nothing happens. -/
def Pagination.goToPage (s : PagState β) (pageNumber : Int) (editOk : Bool) :
    PagState β × List Effect :=
  if 0 ≤ pageNumber ∧ pageNumber < (s.totalPageCount : Int) then
    let s1 := Pagination.updateButtonStates
      { s with currentPage := pageNumber.toNat }
    if editOk then (s1, [Effect.editMessage])
    else (Pagination.stopView s1, [Effect.editMessage])
  else (s, [])

/-- `Pagination._is_valid_user`: compares the interacting user with the
originating `Context.author` or `Interaction.user`; `False` when
`ctx_or_interaction` is `None`. -/
def Pagination.isValidUser (s : PagState β) (user : Nat) : Bool :=
  match s.ctxOrInteraction with
  | some (CtxOrInteraction.ctx author) => user == author
  | some (CtxOrInteraction.interaction u) => user == u
  | none => false

/-- `Pagination.first_page_callback`. -/
def Pagination.firstPageCallback (s : PagState β) (user : Nat)
    (editOk : Bool) : PagState β × List Effect :=
  if Pagination.isValidUser s user then Pagination.goToPage s 0 editOk
  else (s, [])

/-- `Pagination.previous_button_callback`. -/
def Pagination.previousButtonCallback (s : PagState β) (user : Nat)
    (editOk : Bool) : PagState β × List Effect :=
  if Pagination.isValidUser s user then
    Pagination.goToPage s ((s.currentPage : Int) - 1) editOk
  else (s, [])

/-- `Pagination.page_select_callback`: opens the page-select modal. -/
def Pagination.pageSelectCallback (s : PagState β) (user : Nat) :
    PagState β × List Effect :=
  if Pagination.isValidUser s user then (s, [Effect.sendModal])
  else (s, [])

/-- `Pagination.next_button_callback`. -/
def Pagination.nextButtonCallback (s : PagState β) (user : Nat)
    (editOk : Bool) : PagState β × List Effect :=
  if Pagination.isValidUser s user then
    Pagination.goToPage s ((s.currentPage : Int) + 1) editOk
  else (s, [])

/-- `Pagination.last_page_callback`. -/
def Pagination.lastPageCallback (s : PagState β) (user : Nat)
    (editOk : Bool) : PagState β × List Effect :=
  if Pagination.isValidUser s user then
    Pagination.goToPage s ((s.totalPageCount : Int) - 1) editOk
  else (s, [])

/-- `Pagination.on_timeout`: disables every child button, attempts one
best-effort message edit (its failure is swallowed, so it does not affect
the state), then clears `pages`, `ctx_or_interaction` and `message`. -/
def Pagination.onTimeout (s : PagState β) : PagState β :=
  let s1 := { s with buttons :=
    { s.buttons with
      firstDisabled := true, prevDisabled := true, currentDisabled := true,
      nextDisabled := true, lastDisabled := true } }
  { s1 with pages := none, ctxOrInteraction := none, message := none }

/-- Value of an ASCII decimal digit, else `none`. -/
def pyDigit (c : Char) : Option Nat :=
  if '0' ≤ c ∧ c ≤ '9' then some (c.toNat - '0'.toNat) else none

/-- Digit-run tail of Python `int()`: single underscores are allowed
between digits only. -/
def pyDigitsGo : Nat → List Char → Option Nat
  | acc, [] => some acc
  | acc, '_' :: rest =>
    match rest with
    | d :: rest2 =>
      match pyDigit d with
      | some n => pyDigitsGo (acc * 10 + n) rest2
      | none => none
    | [] => none
  | acc, c :: rest =>
    match pyDigit c with
    | some n => pyDigitsGo (acc * 10 + n) rest
    | none => none

/-- A non-empty digit run that does not start with an underscore. -/
def pyParseUnsigned : List Char → Option Nat
  | [] => none
  | c :: rest =>
    match pyDigit c with
    | some n => pyDigitsGo n rest
    | none => none

def pyIsSpace (c : Char) : Bool :=
  c == ' ' || c == '\t' || c == '\n' || c == '\r'

def pyStripChars (cs : List Char) : List Char :=
  ((cs.dropWhile pyIsSpace).reverse.dropWhile pyIsSpace).reverse

/-- Python `int(str)` (restricted to ASCII whitespace, ASCII digits and a
leading sign; unicode digits are out of scope): `none` models the
`ValueError`. -/
def pyInt (s : String) : Option Int :=
  match pyStripChars s.toList with
  | '+' :: rest => (pyParseUnsigned rest).map (fun n => (n : Int))
  | '-' :: rest => (pyParseUnsigned rest).map (fun n => -(n : Int))
  | cs => (pyParseUnsigned cs).map (fun n => (n : Int))

/-- The ephemeral message sent for an out-of-range page number:
`f"1から{self.page_view.total_page_count}までの数字を入力してください。"`. -/
def outOfRangeMsg (k : Nat) : String :=
  "1から" ++ toString k ++ "までの数字を入力してください。"

/-- The ephemeral message sent when `int()` raises `ValueError`. -/
def invalidFormatMsg : String := "有効な数字を入力してください。"

/-- `PageSelectModal.on_submit`: parses the typed value with `int()`; in
range `[1, total_page_count]` it delegates to `go_to_page(value - 1)`,
out of range it sends the range message, and a `ValueError` sends the
format message. The submitting user is received (via `interaction`) but
never compared with the session owner. -/
def PageSelectModal.onSubmit (s : PagState β) (submitUser : Nat)
    (input : String) (editOk : Bool) : PagState β × List Effect :=
  match pyInt input with
  | some v =>
    if 1 ≤ v ∧ v ≤ (s.totalPageCount : Int) then
      Pagination.goToPage s (v - 1) editOk
    else (s, [Effect.sendEphemeral (outOfRangeMsg s.totalPageCount)])
  | none => (s, [Effect.sendEphemeral invalidFormatMsg])

/-- Result of `ListPagination.start`: a static single page, a live
session, or the `IndexError` raised by `self.pages[0]` on an empty list. -/
inductive StartResult (β : Type) where
  | staticPage (page : β)
  | session (st : PagState β)
  | indexError
  deriving DecidableEq

/-- `Pagination.start`: stores the pages, their count and the caller,
builds the buttons, sends `self.pages[0]` (indexing an empty list raises
`IndexError`, modelled as `none`), then updates the button states. -/
def Pagination.startSim (pages : List β) (c : CtxOrInteraction) :
    Option (PagState β) :=
  match pages with
  | [] => none
  | p0 :: rest =>
    some (Pagination.updateButtonStates
      { pages := some (p0 :: rest), ctxOrInteraction := some c,
        message := some (), currentPage := 0,
        totalPageCount := (p0 :: rest).length,
        buttons := addButton (p0 :: rest).length, stopped := false })

/-- `ListPagination.start`: builds the pages; a single page is sent
statically (`paginator.pages[0]`), otherwise a `Pagination` view is
started on the page list. The renderer construction is abstracted into
the argument `r`. -/
def ListPagination.start (r : List α → PageInfo → β) (items : List α)
    (p : Nat) (c : CtxOrInteraction) : StartResult β :=
  let pages := ListPaginator.createPages r items p
  if pages.length = 1 then
    match pages with
    | page :: _ => StartResult.staticPage page
    | [] => StartResult.indexError
  else
    match Pagination.startSim pages c with
    | some st => StartResult.session st
    | none => StartResult.indexError

/-- Does `l` start with `pre`? (helper for Python substring `in`). -/
def startsWithL : List Char → List Char → Bool
  | [], _ => true
  | _ :: _, [] => false
  | a :: as, b :: bs => a == b && startsWithL as bs

/-- Is `needle` a contiguous substring of `hay`? -/
def containsL (needle : List Char) : List Char → Bool
  | [] => needle.isEmpty
  | c :: t => startsWithL needle (c :: t) || containsL needle t

/-- Python `needle in hay` on strings (substring containment). -/
def pyInStr (needle hay : String) : Bool :=
  containsL needle.toList hay.toList

/-- `BoolTransformer.transform`: `value == "有効"`. -/
def BoolTransformer.transform (value : String) : Bool := value == "有効"

/-- The `options` list of `BoolTransformer.autocomplete`. -/
def boolOptions : List String := ["有効", "無効"]

/-- `BoolTransformer.autocomplete`: the options containing `current` as a
substring, in declared order (the `Choice` wrapper keeps `name = value`,
so the options themselves stand for the choices). -/
def BoolTransformer.autocomplete (current : String) : List String :=
  boolOptions.filter (fun option => pyInStr current option)

/-- The parts of a `discord.Interaction` read by
`InteractionBucketType.get_key`, as ids: `user.id`, `guild.id` (absent
outside a guild), `channel.id`, the channel category id (absent when
ungrouped), `user.top_role.id`, and whether the channel is a
`discord.PrivateChannel`. -/
structure Interaction where
  userId : Nat
  guild : Option Nat
  channelId : Nat
  categoryId : Option Nat
  topRoleId : Nat
  isPrivateChannel : Bool
  deriving DecidableEq

/-- The heterogeneous return value of `get_key`: `None` (the implicit
fall-through for `default`), a single id, or the `member` tuple
`((interaction.guild and interaction.guild.id), interaction.user.id)`. -/
inductive BucketKey where
  | noneKey
  | id (n : Nat)
  | pair (g : Option Nat) (u : Nat)
  deriving DecidableEq

/-- The `InteractionBucketType` enumeration of `cooldown.py`. -/
inductive InteractionBucketType where
  | default
  | user
  | guild
  | channel
  | member
  | category
  | role
  deriving DecidableEq

/-- `InteractionBucketType.get_key`. -/
def InteractionBucketType.get_key :
    InteractionBucketType → Interaction → BucketKey
  | .default, _ => BucketKey.noneKey
  | .user, i => BucketKey.id i.userId
  | .guild, i => BucketKey.id (i.guild.getD i.userId)
  | .channel, i => BucketKey.id i.channelId
  | .member, i => BucketKey.pair i.guild i.userId
  | .category, i => BucketKey.id (i.categoryId.getD i.channelId)
  | .role, i =>
    BucketKey.id (if i.isPrivateChannel then i.channelId else i.topRoleId)

/-- A concrete three-page session owned by user 1, as produced by
`Pagination.start` would leave it; used to instantiate the theorems. -/
def demoState : PagState Nat :=
  { pages := some [10, 20, 30]
    ctxOrInteraction := some (CtxOrInteraction.interaction 1)
    message := some ()
    currentPage := 0
    totalPageCount := 3
    buttons := addButton 3
    stopped := false }

theorem ceilDiv_zero_left (p : Nat) : ceilDiv 0 p = 0 := by
  unfold ceilDiv
  rcases Nat.eq_zero_or_pos p with h | h
  · simp [h]
  · exact Nat.div_eq_of_lt (by omega)

theorem ceilDiv_pos_rec (n p : Nat) (hp : 0 < p) (hn : 0 < n) :
    ceilDiv n p = ceilDiv (n - p) p + 1 := by
  unfold ceilDiv
  rcases Nat.le_total p n with h | h
  · have h1 : n + p - 1 = ((n - p) + p - 1) + p := by omega
    rw [h1, Nat.add_div_right _ hp]
  · have h0 : n - p = 0 := by omega
    rw [h0]
    have h1 : (0 + p - 1) / p = 0 := Nat.div_eq_of_lt (by omega)
    rw [h1]
    have h2 : n + p - 1 = (n - 1) + p := by omega
    rw [h2, Nat.add_div_right _ hp]
    have h3 : (n - 1) / p = 0 := Nat.div_eq_of_lt (by omega)
    omega

theorem chunksGo_eq_range_map (p t : Nat) (items : List α) :
    chunksGo p t items = (List.range t).map (pageChunk items p) := by
  induction t generalizing items with
  | zero => simp [chunksGo]
  | succ t ih =>
    rw [List.range_succ_eq_map, List.map_cons, List.map_map]
    unfold chunksGo
    rw [ih (items.drop p)]
    congr 1
    · simp [pageChunk]
    · apply List.map_congr_left
      intro i _
      simp only [Function.comp_apply, pageChunk, List.drop_drop]
      congr 2
      simp [Nat.succ_eq_add_one]
      ring

theorem flatten_chunksGo (p : Nat) (hp : 0 < p) :
    ∀ (n : Nat) (items : List α), items.length ≤ n →
      (chunksGo p (ceilDiv items.length p) items).flatten = items := by
  intro n
  induction n with
  | zero =>
    intro items h
    have : items = [] := List.length_eq_zero.mp (by omega)
    subst this
    simp [ceilDiv_zero_left, chunksGo]
  | succ n ih =>
    intro items h
    rcases Nat.eq_zero_or_pos items.length with h0 | h0
    · have : items = [] := List.length_eq_zero.mp h0
      subst this
      simp [ceilDiv_zero_left, chunksGo]
    · rw [ceilDiv_pos_rec items.length p hp h0]
      unfold chunksGo
      rw [List.flatten_cons]
      have hlen : (items.drop p).length = items.length - p := by
        simp
      have hle : (items.drop p).length ≤ n := by omega
      have := ih (items.drop p) hle
      rw [hlen] at this
      rw [this]
      exact List.take_append_drop p items

theorem flatten_chunksList (items : List α) (p : Nat) (hp : 0 < p) :
    (chunksList items p).flatten = items := by
  rw [chunksList, ← chunksGo_eq_range_map]
  exact flatten_chunksGo p hp items.length items le_rfl

theorem pageChunk_length_le (items : List α) (p i : Nat) :
    (pageChunk items p i).length ≤ p := by
  simp [pageChunk]

theorem pageChunk_length_eq (items : List α) (p i : Nat) (hp : 0 < p)
    (h : i + 1 < ceilDiv items.length p) :
    (pageChunk items p i).length = p := by
  have key : (i + 2) * p ≤ items.length + p - 1 := by
    have h2 : i + 2 ≤ ceilDiv items.length p := by omega
    exact (Nat.le_div_iff_mul_le hp).mp h2
  have expand : (i + 2) * p = i * p + 2 * p := by ring
  rw [expand] at key
  simp only [pageChunk, List.length_take, List.length_drop]
  omega

/-- Claim C1: for every item collection of length `n` and page size `p > 0`,
`ListPaginator._create_pages` builds exactly `ceil(n/p)` pages; page `i` is
rendered from the contiguous chunk `items[i*p : i*p+p]`, every chunk has at
most `p` items and every non-last chunk exactly `p`; and the chunks
concatenated in order reproduce the original collection. -/
theorem listPaginator_createPages_correct (r : List α → PageInfo → β)
    (items : List α) (p : Nat) (hp : 0 < p) :
    (ListPaginator.createPages r items p).length = ceilDiv items.length p
    ∧ (∀ i, i < ceilDiv items.length p →
        (ListPaginator.createPages r items p)[i]? =
          some (r (pageChunk items p i)
            ⟨i, ceilDiv items.length p, i * p⟩))
    ∧ (∀ i, (pageChunk items p i).length ≤ p)
    ∧ (∀ i, i + 1 < ceilDiv items.length p →
        (pageChunk items p i).length = p)
    ∧ (chunksList items p).flatten = items := by
  refine ⟨?_, ?_, ?_, ?_, ?_⟩
  · simp [ListPaginator.createPages]
  · intro i hi
    simp [ListPaginator.createPages, List.getElem?_map,
      List.getElem?_range hi]
  · intro i
    exact pageChunk_length_le items p i
  · intro i hi
    exact pageChunk_length_eq items p i hp hi
  · exact flatten_chunksList items p hp

/-- Witness for C1 at a concrete input: 3 items, page size 2. -/
theorem listPaginator_createPages_correct_witness :
    0 < 2 ∧
    (ListPaginator.createPages (fun c _ => c) [10, 20, 30] 2).length =
      ceilDiv 3 2 ∧
    (chunksList [10, 20, 30] 2).flatten = [10, 20, 30] := by
  refine ⟨by decide, ?_, ?_⟩
  · exact (listPaginator_createPages_correct (fun c _ => c) [10, 20, 30] 2
      (by decide)).1
  · exact (listPaginator_createPages_correct (fun c _ => c) [10, 20, 30] 2
      (by decide)).2.2.2.2

/-- Claim C2 counterexample: for the empty collection and page size 10 the
builder yields zero pages, not one page with empty content. -/
theorem listPaginator_empty_counterexample :
    ¬ (ListPaginator.createPages (fun (c : List Nat) _ => c) [] 10).length
        = 1 := by
  decide

/-- Claim C2 amended: for the empty item collection and every page size,
`ListPaginator._create_pages` yields zero pages (`ceil(0/p) = 0`), not one. -/
theorem listPaginator_empty_pages (r : List Nat → PageInfo → List Nat)
    (p : Nat) : ListPaginator.createPages r ([] : List Nat) p = [] := by
  simp [ListPaginator.createPages, ceilDiv_zero_left]

/-- `_create_pages` on the empty collection yields no pages at all. -/
theorem createPages_nil (r : List α → PageInfo → β) (p : Nat) :
    ListPaginator.createPages r ([] : List α) p = [] := by
  simp [ListPaginator.createPages, ceilDiv_zero_left]

/-- Claim C3: `ListPagination.start` on an empty item collection builds
zero pages, so the single-page branch is skipped and `Pagination.start`
indexes `pages[0]` on an empty list: the out-of-bounds error is reached,
and neither a static page nor a session is produced. -/
theorem listPagination_start_empty (r : List α → PageInfo → β) (p : Nat)
    (hp : 0 < p) (c : CtxOrInteraction) :
    ListPagination.start r ([] : List α) p c = StartResult.indexError := by
  simp [ListPagination.start, createPages_nil, Pagination.startSim]

/-- Witness for C3 at the default page size 10. -/
theorem listPagination_start_empty_witness :
    0 < 10 ∧
    ListPagination.start (fun (c : List Nat) (_ : PageInfo) => c)
      ([] : List Nat) 10 (CtxOrInteraction.ctx 1)
      = StartResult.indexError :=
  ⟨by decide,
   listPagination_start_empty (fun (c : List Nat) (_ : PageInfo) => c) 10
     (by decide) (CtxOrInteraction.ctx 1)⟩

/-- Claim C4 counterexample: a delivery failure during `go_to_page` stops
the view but does not release the page list — `pages` is still set, so the
session does not release its references as claimed. -/
theorem goToPage_failure_counterexample :
    (Pagination.goToPage demoState 1 false).1.stopped = true
    ∧ (Pagination.goToPage demoState 1 false).1.pages ≠ none := by
  decide

/-- Claim C4 amended: if the re-render fails during `go_to_page` the view
is stopped (no retry), but its references (page list, caller/context,
message handle) are retained; the references are cleared only by
`on_timeout`. -/
theorem goToPage_failure_stops_without_release (s : PagState β) (i : Int)
    (h : 0 ≤ i ∧ i < (s.totalPageCount : Int)) :
    ((Pagination.goToPage s i false).1.stopped = true
      ∧ (Pagination.goToPage s i false).1.pages = s.pages
      ∧ (Pagination.goToPage s i false).1.ctxOrInteraction
          = s.ctxOrInteraction
      ∧ (Pagination.goToPage s i false).1.message = s.message)
    ∧ ((Pagination.onTimeout s).pages = none
      ∧ (Pagination.onTimeout s).ctxOrInteraction = none
      ∧ (Pagination.onTimeout s).message = none) := by
  refine ⟨?_, by simp [Pagination.onTimeout]⟩
  simp [Pagination.goToPage, h, Pagination.stopView,
    Pagination.updateButtonStates]

/-- Witness for the amended C4. -/
theorem goToPage_failure_stops_without_release_witness :
    ((0:Int) ≤ 1 ∧ (1:Int) < (demoState.totalPageCount : Int))
    ∧ (Pagination.goToPage demoState 1 false).1.stopped = true
    ∧ (Pagination.onTimeout demoState).pages = none :=
  ⟨by decide,
   (goToPage_failure_stops_without_release demoState 1 (by decide)).1.1,
   (goToPage_failure_stops_without_release demoState 1 (by decide)).2.1⟩

/-- Claim C5 counterexample: the page-jump modal submission never checks
the submitting user: user 2 is not the owner of `demoState` (owner 1), yet
submitting "2" moves the session to page index 1. -/
theorem onSubmit_no_auth_counterexample :
    Pagination.isValidUser demoState 2 = false
    ∧ (PageSelectModal.onSubmit demoState 2 "2" true).1.currentPage = 1 := by
  decide

/-- Claim C5 amended: each of the five button callbacks checks the invoking
user against the session owner via `_is_valid_user` and, on mismatch,
returns with the state unchanged and no outbound effect; the modal
submission handler performs no such check. -/
theorem buttonCallbacks_unauthorized_noop (s : PagState β) (user : Nat)
    (editOk : Bool) (h : Pagination.isValidUser s user = false) :
    Pagination.firstPageCallback s user editOk = (s, [])
    ∧ Pagination.previousButtonCallback s user editOk = (s, [])
    ∧ Pagination.pageSelectCallback s user = (s, [])
    ∧ Pagination.nextButtonCallback s user editOk = (s, [])
    ∧ Pagination.lastPageCallback s user editOk = (s, []) := by
  simp [Pagination.firstPageCallback, Pagination.previousButtonCallback,
    Pagination.pageSelectCallback, Pagination.nextButtonCallback,
    Pagination.lastPageCallback, h]

/-- Witness for the amended C5: user 2 is rejected on `demoState`. -/
theorem buttonCallbacks_unauthorized_noop_witness :
    Pagination.isValidUser demoState 2 = false
    ∧ Pagination.firstPageCallback demoState 2 true = (demoState, [])
    ∧ Pagination.nextButtonCallback demoState 2 true = (demoState, []) :=
  ⟨by decide,
   (buttonCallbacks_unauthorized_noop demoState 2 true (by decide)).1,
   (buttonCallbacks_unauthorized_noop demoState 2 true (by decide)).2.2.2.1⟩

/-- The two modal error messages are distinct strings. -/
theorem invalidFormat_ne_outOfRange (k : Nat) :
    invalidFormatMsg ≠ outOfRangeMsg k := by
  intro h
  have h2 := congrArg String.data h
  simp only [invalidFormatMsg, outOfRangeMsg, String.data_append] at h2
  simp at h2

/-- Claim C6: on modal submission with page count `k`, unparseable input
yields the invalid-format ephemeral message, a parsed integer outside
`[1, k]` yields the distinct out-of-range ephemeral message (both leaving
the state untouched), and a parsed integer `v` in `[1, k]` delegates to
`go_to_page(v - 1)`, which sets the current index to `v - 1`. -/
theorem onSubmit_validation (s : PagState β) (u : Nat) (input : String)
    (editOk : Bool) :
    (pyInt input = none →
      PageSelectModal.onSubmit s u input editOk
        = (s, [Effect.sendEphemeral invalidFormatMsg]))
    ∧ (∀ v, pyInt input = some v →
        (v < 1 ∨ (s.totalPageCount : Int) < v) →
        PageSelectModal.onSubmit s u input editOk
          = (s, [Effect.sendEphemeral (outOfRangeMsg s.totalPageCount)]))
    ∧ (∀ v, pyInt input = some v → 1 ≤ v → v ≤ (s.totalPageCount : Int) →
        PageSelectModal.onSubmit s u input editOk
            = Pagination.goToPage s (v - 1) editOk
        ∧ ((PageSelectModal.onSubmit s u input editOk).1.currentPage : Int)
            = v - 1)
    ∧ invalidFormatMsg ≠ outOfRangeMsg s.totalPageCount := by
  refine ⟨?_, ?_, ?_, invalidFormat_ne_outOfRange s.totalPageCount⟩
  · intro h
    simp [PageSelectModal.onSubmit, h]
  · intro v hv hout
    simp only [PageSelectModal.onSubmit, hv]
    rw [if_neg (by omega)]
  · intro v hv h1 h2
    constructor
    · simp only [PageSelectModal.onSubmit, hv]
      rw [if_pos ⟨h1, h2⟩]
    · simp only [PageSelectModal.onSubmit, hv]
      rw [if_pos ⟨h1, h2⟩]
      simp only [Pagination.goToPage]
      rw [if_pos (by omega : (0:Int) ≤ v - 1
        ∧ v - 1 < (s.totalPageCount : Int))]
      cases editOk <;>
        simp [Pagination.stopView, Pagination.updateButtonStates] <;>
        omega

/-- Witness for C6 on the three-page `demoState`: "abc" is rejected as
format, "0" and "4" as range, and "3" reaches index 2. -/
theorem onSubmit_validation_witness :
    PageSelectModal.onSubmit demoState 9 "abc" true
      = (demoState, [Effect.sendEphemeral invalidFormatMsg])
    ∧ PageSelectModal.onSubmit demoState 9 "0" true
      = (demoState, [Effect.sendEphemeral (outOfRangeMsg 3)])
    ∧ PageSelectModal.onSubmit demoState 9 "4" true
      = (demoState, [Effect.sendEphemeral (outOfRangeMsg 3)])
    ∧ ((PageSelectModal.onSubmit demoState 9 "3" true).1.currentPage : Int)
      = 3 - 1 :=
  ⟨(onSubmit_validation demoState 9 "abc" true).1 (by decide),
   (onSubmit_validation demoState 9 "0" true).2.1 0 (by decide) (by decide),
   (onSubmit_validation demoState 9 "4" true).2.1 4 (by decide) (by decide),
   ((onSubmit_validation demoState 9 "3" true).2.2.1 3 (by decide)
     (by decide) (by decide)).2⟩

/-- Claim C7: after `update_button_states` with index `i` and page count
`k` (`i < k`): at `i = 0` first/previous are disabled and, when `k > 1`,
next/last enabled; at `i = k - 1` the reverse; at `1 ≤ i ≤ k - 2` all four
are enabled; and the jump-button label shows `"{i+1}/{k}"`. -/
theorem updateButtonStates_invariant (s : PagState β)
    (hik : s.currentPage < s.totalPageCount) :
    (s.currentPage = 0 →
      (Pagination.updateButtonStates s).buttons.firstDisabled = true
      ∧ (Pagination.updateButtonStates s).buttons.prevDisabled = true
      ∧ (1 < s.totalPageCount →
          (Pagination.updateButtonStates s).buttons.nextDisabled = false
          ∧ (Pagination.updateButtonStates s).buttons.lastDisabled = false))
    ∧ (s.currentPage = s.totalPageCount - 1 →
      (Pagination.updateButtonStates s).buttons.nextDisabled = true
      ∧ (Pagination.updateButtonStates s).buttons.lastDisabled = true
      ∧ (1 < s.totalPageCount →
          (Pagination.updateButtonStates s).buttons.firstDisabled = false
          ∧ (Pagination.updateButtonStates s).buttons.prevDisabled = false))
    ∧ (1 ≤ s.currentPage → s.currentPage ≤ s.totalPageCount - 2 →
      (Pagination.updateButtonStates s).buttons.firstDisabled = false
      ∧ (Pagination.updateButtonStates s).buttons.prevDisabled = false
      ∧ (Pagination.updateButtonStates s).buttons.nextDisabled = false
      ∧ (Pagination.updateButtonStates s).buttons.lastDisabled = false)
    ∧ (∃ suffix,
        (Pagination.updateButtonStates s).buttons.currentLabel
          = toString (s.currentPage + 1) ++ "/"
            ++ toString s.totalPageCount ++ suffix) := by
  refine ⟨?_, ?_, ?_, ⟨"ページ", rfl⟩⟩
  · intro h0
    refine ⟨by simp [Pagination.updateButtonStates, h0], by
      simp [Pagination.updateButtonStates, h0], ?_⟩
    intro hk
    constructor <;>
      · simp only [Pagination.updateButtonStates, decide_eq_false_iff_not]
        omega
  · intro hlast
    refine ⟨by
        simp only [Pagination.updateButtonStates, decide_eq_true_eq]
        omega,
      by
        simp only [Pagination.updateButtonStates, decide_eq_true_eq]
        omega, ?_⟩
    intro hk
    constructor <;>
      · simp only [Pagination.updateButtonStates, decide_eq_false_iff_not]
        omega
  · intro h1 h2
    refine ⟨?_, ?_, ?_, ?_⟩ <;>
      · simp only [Pagination.updateButtonStates, decide_eq_false_iff_not]
        omega

/-- Witness for C7 on `demoState` (index 0 of 3 pages). -/
theorem updateButtonStates_invariant_witness :
    demoState.currentPage < demoState.totalPageCount
    ∧ (Pagination.updateButtonStates demoState).buttons.firstDisabled = true
    ∧ (Pagination.updateButtonStates demoState).buttons.nextDisabled
        = false :=
  ⟨by decide,
   ((updateButtonStates_invariant demoState (by decide)).1 (by decide)).1,
   (((updateButtonStates_invariant demoState (by decide)).1
      (by decide)).2.2 (by decide)).1⟩

/-- Claim C8: for any session, `go_to_page` with a target outside
`[0, k)` changes nothing and performs no edit; and with the current index
it is idempotent on the session state (for either edit outcome). -/
theorem goToPage_noop_and_idempotent (s : PagState β) (i : Int)
    (editOk : Bool) (hk : 1 ≤ s.totalPageCount) :
    ((i < 0 ∨ (s.totalPageCount : Int) ≤ i) →
      Pagination.goToPage s i editOk = (s, []))
    ∧ ((Pagination.goToPage
          ((Pagination.goToPage s (s.currentPage : Int) editOk).1)
          (((Pagination.goToPage s (s.currentPage : Int) editOk).1).currentPage
            : Int) editOk).1
        = (Pagination.goToPage s (s.currentPage : Int) editOk).1) := by
  constructor
  · intro h
    simp only [Pagination.goToPage]
    rw [if_neg (by omega)]
  · by_cases hcur : (s.currentPage : Int) < (s.totalPageCount : Int)
    · have hguard : (0:Int) ≤ (s.currentPage : Int)
          ∧ (s.currentPage : Int) < (s.totalPageCount : Int) :=
        ⟨by omega, hcur⟩
      simp only [Pagination.goToPage]
      rw [if_pos hguard]
      cases editOk <;>
        simp_all [Pagination.stopView, Pagination.updateButtonStates]
    · have hguard : ¬((0:Int) ≤ (s.currentPage : Int)
          ∧ (s.currentPage : Int) < (s.totalPageCount : Int)) := by omega
      simp only [Pagination.goToPage]
      rw [if_neg hguard, if_neg hguard]

/-- Witness for C8 on `demoState`: target 5 is out of range of 3 pages. -/
theorem goToPage_noop_and_idempotent_witness :
    1 ≤ demoState.totalPageCount
    ∧ Pagination.goToPage demoState 5 true = (demoState, [])
    ∧ (Pagination.goToPage
         ((Pagination.goToPage demoState (demoState.currentPage : Int)
            true).1)
         (((Pagination.goToPage demoState (demoState.currentPage : Int)
            true).1).currentPage : Int) true).1
       = (Pagination.goToPage demoState (demoState.currentPage : Int)
            true).1 :=
  ⟨by decide,
   (goToPage_noop_and_idempotent demoState 5 true (by decide)).1
     (by decide),
   (goToPage_noop_and_idempotent demoState 0 true (by decide)).2⟩

/-- Claim C9 counterexample: "効" is a substring of the enabled token
"有効", yet autocomplete returns both tokens (it is also a substring of
"無効"), not only the enabled one. -/
theorem autocomplete_substring_counterexample :
    pyInStr "効" "有効" = true
    ∧ BoolTransformer.autocomplete "効" ≠ ["有効"] := by
  decide

/-- Claim C9 amended: autocomplete returns exactly the declared tokens
containing the partial as a substring, in declared order; a partial that is
a substring of the enabled token and not of the disabled token returns
only the enabled token. -/
theorem autocomplete_filter_correct (cur : String) :
    (∀ opt, opt ∈ BoolTransformer.autocomplete cur ↔
      opt ∈ boolOptions ∧ pyInStr cur opt = true)
    ∧ List.Sublist (BoolTransformer.autocomplete cur) boolOptions
    ∧ (pyInStr cur "有効" = true → pyInStr cur "無効" = false →
        BoolTransformer.autocomplete cur = ["有効"]) := by
  refine ⟨?_, ?_, ?_⟩
  · intro opt
    simp [BoolTransformer.autocomplete, List.mem_filter]
  · exact List.filter_sublist _
  · intro h1 h2
    simp [BoolTransformer.autocomplete, boolOptions, h1, h2]

/-- Witness for the amended C9: "有" is a substring of "有効" only. -/
theorem autocomplete_filter_correct_witness :
    pyInStr "有" "有効" = true ∧ pyInStr "有" "無効" = false
    ∧ BoolTransformer.autocomplete "有" = ["有効"] :=
  ⟨by decide, by decide,
   (autocomplete_filter_correct "有").2.2 (by decide) (by decide)⟩

/-- Claim C10: the `member` bucket key is the pair
`((guild and guild.id), user.id)`: requests agreeing on both components
share a key, and requests differing in the workspace (guild) component or
in the caller component get different keys. -/
theorem memberKey_pair (i1 i2 : Interaction) :
    ((i1.guild = i2.guild ∧ i1.userId = i2.userId) →
      InteractionBucketType.get_key InteractionBucketType.member i1
        = InteractionBucketType.get_key InteractionBucketType.member i2)
    ∧ (i1.guild ≠ i2.guild →
      InteractionBucketType.get_key InteractionBucketType.member i1
        ≠ InteractionBucketType.get_key InteractionBucketType.member i2)
    ∧ (i1.userId ≠ i2.userId →
      InteractionBucketType.get_key InteractionBucketType.member i1
        ≠ InteractionBucketType.get_key InteractionBucketType.member i2) := by
  refine ⟨?_, ?_, ?_⟩
  · rintro ⟨h1, h2⟩
    simp [InteractionBucketType.get_key, h1, h2]
  · intro h hcontra
    simp [InteractionBucketType.get_key] at hcontra
    exact h hcontra.1
  · intro h hcontra
    simp [InteractionBucketType.get_key] at hcontra
    exact h hcontra.2

/-- Witness for C10: same (guild 5, user 1) pair gives equal keys even
with all other fields different; changing either the guild or the user
changes the key. -/
theorem memberKey_pair_witness :
    InteractionBucketType.get_key InteractionBucketType.member
        ⟨1, some 5, 7, none, 9, false⟩
      = InteractionBucketType.get_key InteractionBucketType.member
        ⟨1, some 5, 8, some 2, 3, true⟩
    ∧ InteractionBucketType.get_key InteractionBucketType.member
        ⟨1, some 5, 7, none, 9, false⟩
      ≠ InteractionBucketType.get_key InteractionBucketType.member
        ⟨1, none, 7, none, 9, false⟩
    ∧ InteractionBucketType.get_key InteractionBucketType.member
        ⟨1, some 5, 7, none, 9, false⟩
      ≠ InteractionBucketType.get_key InteractionBucketType.member
        ⟨2, some 5, 7, none, 9, false⟩ :=
  ⟨(memberKey_pair ⟨1, some 5, 7, none, 9, false⟩
      ⟨1, some 5, 8, some 2, 3, true⟩).1 ⟨rfl, rfl⟩,
   (memberKey_pair ⟨1, some 5, 7, none, 9, false⟩
      ⟨1, none, 7, none, 9, false⟩).2.1 (by decide),
   (memberKey_pair ⟨1, some 5, 7, none, 9, false⟩
      ⟨2, some 5, 7, none, 9, false⟩).2.2 (by decide)⟩
